import Mathlib

/-!
Verification of the ingestion-and-history-store core of the oil well
dashboard (src/src/well_data_dashboard.py).  The listener receives one
JSON payload per connection, normalizes it into a list of records,
prepends the records to a persisted newest-first history capped at 1000
entries, and persists the result; a display thread reads the history
back with a one-level flattening, and a reset button rewrites the
history to the empty list.
-/

/-- A parsed JSON value, as produced by Python's json.loads: null,
booleans, numbers, strings, arrays and objects (objects as ordered
key/value lists; json.loads keeps the last binding of a duplicate key,
which lookup on the reversed list reproduces).  Numbers are modelled as
integers; the core treats record contents as opaque, so the numeric
representation is irrelevant to every property proved here. -/
inductive Json where
  | null
  | bool (b : Bool)
  | num (n : Int)
  | str (s : String)
  | arr (elems : List Json)
  | obj (fields : List (String × Json))

/-- True exactly for JSON objects (Python dicts). -/
def isObjJ : Json → Bool
  | .obj _ => true
  | _ => false

/-- True exactly for JSON arrays (Python lists). -/
def isArrJ : Json → Bool
  | .arr _ => true
  | _ => false

example : isObjJ (Json.obj []) = true := rfl
example : isArrJ (Json.arr [Json.null]) = true := rfl
example : Json.num 0 ≠ Json.arr [] := by simp
example : Json.arr [Json.num 0] ≠ Json.arr [Json.num 1] := by simp

/-- Lookup of the value stored under a key of a JSON object.  Python's
json.loads keeps the last binding of a duplicated key, so the ordered
field list is searched from the right. -/
def objLookup (key : String) (fields : List (String × Json)) : Option Json :=
  List.lookup key fields.reverse

/-- Top-level shape resolution of the listener, lines 56-61 of
well_data_dashboard.py: a dict containing the key well_data yields the
value stored under that key (whatever its type — the value is not
checked to be a list); otherwise a list yields itself; anything else is
wrapped into a one-element list.  The result is the Python value bound
to new_data. -/
def resolveShape (data : Json) : Json :=
  match data with
  | .obj fields =>
    match objLookup "well_data" fields with
    | some v => v
    | none => .arr [.obj fields]
  | .arr xs => .arr xs
  | d => .arr [d]

/-- The pure read-modify-write body of a successful merge, lines 78 and
81 of well_data_dashboard.py: history = [*new_data, *history] followed
by history = history[:1000]. -/
def mergeRecords (new_data history : List Json) : List Json :=
  (new_data ++ history).take 1000

/-- The read-time flattening of the display thread, lines 182-187 of
well_data_dashboard.py: each persisted entry that is a list is spliced
in place via extend, any other entry is appended as-is. -/
def flattened_data : List Json → List Json
  | [] => []
  | .arr xs :: rest => xs ++ flattened_data rest
  | e :: rest => e :: flattened_data rest

/-- Outcome of handling one connection in the listener loop: ok means
the success path ran to the json.dump of line 85; skipped means the
received buffer was empty, so line 51 skipped the whole body;
malformedPayload is the json.JSONDecodeError branch of lines 87-88;
processingError is any other exception, caught by the outer handler of
lines 89-90 (in particular the TypeError raised by len(new_data) at
line 63 when new_data is not a sized value, and the AttributeError
raised by record.get at line 66 when an element of new_data is not a
dict). -/
inductive Outcome where
  | ok
  | skipped
  | malformedPayload
  | processingError
deriving DecidableEq

/-- Processing of one successfully parsed payload against the persisted
history, lines 53-85 of well_data_dashboard.py.  After shape
resolution, line 63 takes len(new_data) (TypeError unless new_data is a
list, a string or a dict) and line 66 evaluates record.get("forecast")
for every element of new_data (AttributeError unless every element is a
dict; iterating a dict yields its string keys and iterating a string
yields its characters, so a non-empty dict or string also raises).  Any
such exception aborts the handler before the history file is touched.
On the surviving inputs the history is loaded, new_data is splatted in
front of it (a splatted empty string or empty dict contributes no
elements), truncated to 1000 entries and persisted. -/
def processParsed (data : Json) (history : List Json) : List Json × Outcome :=
  match resolveShape data with
  | .arr xs =>
    if xs.all isObjJ then (mergeRecords xs history, .ok)
    else (history, .processingError)
  | .str s => if s.length = 0 then (mergeRecords [] history, .ok)
    else (history, .processingError)
  | .obj fields => if fields.length = 0 then (mergeRecords [] history, .ok)
    else (history, .processingError)
  | _ => (history, .processingError)

/-- What one accepted connection delivered, after the receive loop of
lines 44-49: an empty buffer, a non-empty buffer that is not valid JSON
(json.loads raises), or a successfully parsed JSON document. -/
inductive Recv where
  | empty
  | malformed
  | parsed (data : Json)

/-- One iteration of the listener loop, lines 40-90 of
well_data_dashboard.py, as a transformer of the persisted history: an
empty buffer is skipped, an unparseable buffer is logged and leaves the
history untouched, and a parsed payload is processed by processParsed. -/
def handleConn (r : Recv) (history : List Json) : List Json × Outcome :=
  match r with
  | .empty => (history, .skipped)
  | .malformed => (history, .malformedPayload)
  | .parsed data => processParsed data history

example : resolveShape (Json.arr [Json.obj []]) = Json.arr [Json.obj []] := rfl
example : resolveShape (Json.obj [("well_data", Json.arr [])]) = Json.arr [] := rfl
example : resolveShape (Json.str "x") = Json.arr [Json.str "x"] := rfl
example : resolveShape (Json.obj [("a", Json.num 1)])
    = Json.arr [Json.obj [("a", Json.num 1)]] := rfl
example : mergeRecords [Json.null] [Json.num 1] = [Json.null, Json.num 1] := rfl
example : flattened_data [Json.arr [Json.num 1, Json.num 2], Json.num 3]
    = [Json.num 1, Json.num 2, Json.num 3] := rfl
example : processParsed (Json.arr [Json.num 1]) [] = ([], Outcome.processingError) := rfl
example : processParsed (Json.obj [("well_data", Json.arr [Json.obj []])]) []
    = ([Json.obj []], Outcome.ok) := rfl

/-- Content of the durable history file: either a complete JSON array
document holding the given entries, or an incomplete document — what a
write that was cut off mid-way leaves behind. -/
inductive FileContent where
  | good (entries : List Json)
  | truncated

/-- Point at which the persistence write of lines 84-85 of
well_data_dashboard.py fails, if it fails at all.  Python semantics:
open(history_file, "w") truncates the file to zero length as soon as it
succeeds; json.dump then streams the serialized history into it.  So a
failure of open itself (for example permission denied) leaves the
previous content intact, while a failure during the dump (for example
disk full) leaves a cut-off document behind. -/
inductive WriteFail where
  | noFail
  | atOpen
  | duringDump
deriving DecidableEq

/-- The persistence write of lines 84-85 of well_data_dashboard.py
under an injected I/O failure.  The code wraps no dedicated handler
around the write: any exception it raises is caught by the generic
per-connection handler of lines 89-90 and logged, which is the
processingError outcome. -/
def persistDump (history : List Json) (w : WriteFail) (f : FileContent) :
    FileContent × Outcome :=
  match w with
  | .noFail => (.good history, .ok)
  | .atOpen => (f, .processingError)
  | .duringDump => (.truncated, .processingError)

/-- Shared state of the two threads of the process: the persisted
history file (the single shared mutable resource) and the listener
thread's local variable history, loaded from the file at line 73 of
well_data_dashboard.py. -/
structure StoreSt where
  file : List Json
  loc : List Json

/-- Atomic events on the shared file, at the granularity of the file
operations in well_data_dashboard.py.  The listener's read-modify-write
is two separate events — loadHistory (lines 71-75) and saveMerged
(lines 78-85, writing the merge of the connection's batch into the
loaded copy) — with no lock around the pair.  resetData is the Reset
Data button handler (lines 108-111) writing an empty list from the
script thread, and snapshotRead is the display read (lines 178-187),
which opens the file only for reading. -/
inductive Ev where
  | loadHistory
  | saveMerged (batch : List Json)
  | resetData
  | snapshotRead

/-- Effect of one atomic event on the shared state. -/
def evStep : Ev → StoreSt → StoreSt
  | .loadHistory, s => { s with loc := s.file }
  | .saveMerged batch, s => { s with file := mergeRecords batch s.loc }
  | .resetData, s => { s with file := [] }
  | .snapshotRead, s => s

/-- Run a whole interleaving of atomic events. -/
def runTrace (es : List Ev) (s : StoreSt) : StoreSt :=
  es.foldl (fun s e => evStep e s) s

/-- The record list the display thread computes from the persisted
file, lines 178-187 of well_data_dashboard.py: the file content with
the one-level flattening applied. -/
def snapshotOf (s : StoreSt) : List Json :=
  flattened_data s.file

/-- Sequential composition of History Store merges, one batch after
another, starting from the empty history created at first run
(lines 27-29 of well_data_dashboard.py).  The listener thread handles
connections strictly one after the other, so any run of the process
performs exactly such a sequence. -/
def mergeAll (batches : List (List Json)) : List Json :=
  batches.foldl (fun h b => mergeRecords b h) []

example : snapshotOf (runTrace [Ev.loadHistory, Ev.resetData,
    Ev.saveMerged [Json.obj []]] ⟨[Json.num 7], []⟩)
    = [Json.obj [], Json.num 7] := rfl
example : mergeAll [[Json.num 1], [Json.num 2]] = [Json.num 2, Json.num 1] := rfl

/-- A concrete telemetry record, used in witnesses and counterexamples. -/
def sampleRec1 : Json :=
  Json.obj [("client", Json.str "W1"), ("Oil volume", Json.num 50)]

/-- A second concrete telemetry record. -/
def sampleRec2 : Json :=
  Json.obj [("client", Json.str "W2"), ("Oil volume", Json.num 60)]

/-- A third concrete telemetry record. -/
def sampleRec3 : Json :=
  Json.obj [("client", Json.str "W3"), ("Oil volume", Json.num 70)]

/-- A batch-nested-inside-a-batch payload: an object whose well_data
entry is a list whose first element is itself a list of two records. -/
def nestedPayload : Json :=
  Json.obj [("well_data", Json.arr [Json.arr [sampleRec1, sampleRec2], sampleRec3])]

/-- Truncating to 1000 absorbs an earlier truncation of the suffix. -/
theorem take_merge_absorb (b t : List Json) :
    (b ++ t.take 1000).take 1000 = (b ++ t).take 1000 := by
  rw [List.take_append_eq_append_take, List.take_append_eq_append_take,
    List.take_take]
  rw [Nat.min_eq_left (Nat.sub_le 1000 b.length)]

/-- Folding merges from any truncated start is the truncation of the
reversed concatenation. -/
theorem mergeAll_from (bs : List (List Json)) :
    ∀ t : List Json, bs.foldl (fun h b => mergeRecords b h) (t.take 1000)
      = (bs.reverse.flatten ++ t).take 1000 := by
  induction bs with
  | nil => intro t; simp
  | cons b bs ih =>
    intro t
    simp only [List.foldl_cons]
    have h1 : mergeRecords b (t.take 1000) = (b ++ t).take 1000 :=
      take_merge_absorb b t
    rw [h1, ih (b ++ t)]
    congr 1
    simp [List.reverse_cons, List.flatten_append, List.append_assoc]

/-- The history after any sequence of merges from the empty history is
the first 1000 entries of the whole newest-first record sequence. -/
theorem mergeAll_eq_take (bs : List (List Json)) :
    mergeAll bs = bs.reverse.flatten.take 1000 := by
  have h := mergeAll_from bs []
  simpa [mergeAll] using h

/-- Length of the history after any sequence of merges from empty. -/
theorem mergeAll_length (bs : List (List Json)) :
    (mergeAll bs).length = min ((bs.map List.length).sum) 1000 := by
  rw [mergeAll_eq_take, List.length_take, List.length_flatten]
  rw [List.map_reverse, List.sum_reverse]
  exact Nat.min_comm _ _

/-- C1: for every sequence of merge operations starting from an empty
history, after any merge the stored history length equals min(total
records ever merged, 1000), and the stored history is always the
newest-first concatenation of all merged batches truncated at 1000, so
merging beyond capacity evicts only the oldest (tail) entries, never
the newest.  (Applying the statement to every initial segment of the
batch list gives the state after any intermediate merge.) -/
theorem C1_capacity_invariant (bs : List (List Json)) :
    (mergeAll bs).length = min ((bs.map List.length).sum) 1000
    ∧ mergeAll bs = bs.reverse.flatten.take 1000 :=
  ⟨mergeAll_length bs, mergeAll_eq_take bs⟩

/-- C2: merge prepends the incoming batch in order before the whole
existing history and truncates to the first 1000 entries; merging one
record into a full 1000-record history drops exactly the last entry,
shifts all others by one position, and puts the new record at
position 0. -/
theorem C2_merge_semantics (new h : List Json) :
    (mergeRecords new h).length = min (new.length + h.length) 1000
    ∧ (∀ i, i < 1000 → (mergeRecords new h)[i]? = (new ++ h)[i]?)
    ∧ (∀ r, h.length = 1000 → mergeRecords [r] h = r :: h.dropLast) := by
  refine ⟨?_, ?_, ?_⟩
  · rw [mergeRecords, List.length_take, List.length_append]
    exact Nat.min_comm _ _
  · intro i hi
    rw [mergeRecords, List.getElem?_take]
    simp [hi]
  · intro r hlen
    show (r :: h).take 1000 = r :: h.dropLast
    rw [List.dropLast_eq_take, hlen]
    rw [show (1000 : Nat) = 999 + 1 from rfl, List.take_succ_cons]

set_option maxRecDepth 100000 in
/-- Witness for C2 at a concrete full history of 1000 records. -/
theorem C2_merge_semantics_witness :
    (0 : Nat) < 1000
    ∧ (List.replicate 1000 (Json.obj [])).length = 1000
    ∧ (mergeRecords [Json.null] (List.replicate 1000 (Json.obj [])))[0]?
        = some Json.null
    ∧ mergeRecords [Json.null] (List.replicate 1000 (Json.obj []))
        = Json.null :: (List.replicate 1000 (Json.obj [])).dropLast := by
  refine ⟨by decide, by simp, ?_, ?_⟩
  · rw [(C2_merge_semantics [Json.null] (List.replicate 1000 (Json.obj []))).2.1
      0 (by decide)]
    rfl
  · exact (C2_merge_semantics [Json.null] (List.replicate 1000 (Json.obj []))).2.2
      Json.null (by simp)

/-- A read-time entry that is not a list is kept as-is by the
flattening loop. -/
theorem flattened_cons_keep (e : Json) (rest : List Json)
    (he : isArrJ e = false) :
    flattened_data (e :: rest) = e :: flattened_data rest := by
  cases e with
  | arr xs => exact absurd he (by simp [isArrJ])
  | null => rfl
  | bool b => rfl
  | num n => rfl
  | str s => rfl
  | obj fields => rfl

/-- A JSON object is not a JSON array. -/
theorem isObjJ_not_arr (e : Json) (he : isObjJ e = true) : isArrJ e = false := by
  cases e <;> simp [isObjJ, isArrJ] at *

/-- C3 counterexample: the decoder does not flatten at ingestion time.
Decoding the nested payload resolves to the two-element candidate list
whose first element is still the nested batch, not to the flat
three-record list; moreover the ingestion handler then fails on the
nested element (record.get on a list raises AttributeError at line 66),
so nothing at all is merged rather than the three records the claim
requires. -/
theorem C3_counterexample :
    resolveShape nestedPayload
        = Json.arr [Json.arr [sampleRec1, sampleRec2], sampleRec3]
    ∧ resolveShape nestedPayload ≠ Json.arr [sampleRec1, sampleRec2, sampleRec3]
    ∧ processParsed nestedPayload [] = ([], Outcome.processingError)
    ∧ processParsed (Json.arr [sampleRec1, sampleRec2, sampleRec3]) []
        = ([sampleRec1, sampleRec2, sampleRec3], Outcome.ok) := by
  refine ⟨rfl, ?_, rfl, rfl⟩
  rw [show resolveShape nestedPayload
      = Json.arr [Json.arr [sampleRec1, sampleRec2], sampleRec3] from rfl]
  simp [sampleRec1, sampleRec2, sampleRec3]

/-- C3 amended: the decoder keeps a nested batch as a single composite
element (no ingestion-time flattening), the ingestion handler then
rejects such a payload without touching the history, and the one-level
flattening happens only at read time, where a stored nested entry is
spliced in place, so the snapshot of a history holding the nested shape
equals the snapshot of the flat shape. -/
theorem C3_flattening_only_at_read (r1 r2 r3 : Json)
    (h1 : isObjJ r1 = true) (h2 : isObjJ r2 = true) (h3 : isObjJ r3 = true) :
    resolveShape (Json.obj [("well_data", Json.arr [Json.arr [r1, r2], r3])])
        = Json.arr [Json.arr [r1, r2], r3]
    ∧ (∀ h : List Json,
        processParsed (Json.obj [("well_data", Json.arr [Json.arr [r1, r2], r3])]) h
          = (h, Outcome.processingError))
    ∧ flattened_data [Json.arr [r1, r2], r3] = [r1, r2, r3]
    ∧ flattened_data [r1, r2, r3] = [r1, r2, r3] := by
  refine ⟨rfl, fun h => rfl, ?_, ?_⟩
  · show r1 :: r2 :: flattened_data [r3] = [r1, r2, r3]
    rw [flattened_cons_keep r3 [] (isObjJ_not_arr r3 h3)]
    rfl
  · rw [flattened_cons_keep r1 _ (isObjJ_not_arr r1 h1),
      flattened_cons_keep r2 _ (isObjJ_not_arr r2 h2),
      flattened_cons_keep r3 _ (isObjJ_not_arr r3 h3)]
    rfl

/-- Witness for C3 amended at the concrete sample records. -/
theorem C3_flattening_only_at_read_witness :
    isObjJ sampleRec1 = true ∧ isObjJ sampleRec2 = true ∧ isObjJ sampleRec3 = true
    ∧ (resolveShape (Json.obj [("well_data",
          Json.arr [Json.arr [sampleRec1, sampleRec2], sampleRec3])])
        = Json.arr [Json.arr [sampleRec1, sampleRec2], sampleRec3]
      ∧ (∀ h : List Json,
          processParsed (Json.obj [("well_data",
            Json.arr [Json.arr [sampleRec1, sampleRec2], sampleRec3])]) h
            = (h, Outcome.processingError))
      ∧ flattened_data [Json.arr [sampleRec1, sampleRec2], sampleRec3]
          = [sampleRec1, sampleRec2, sampleRec3]
      ∧ flattened_data [sampleRec1, sampleRec2, sampleRec3]
          = [sampleRec1, sampleRec2, sampleRec3]) :=
  ⟨rfl, rfl, rfl, C3_flattening_only_at_read sampleRec1 sampleRec2 sampleRec3 rfl rfl rfl⟩

/-- C4 counterexample: the code never checks that the value under
well_data is a sequence.  For the object payload whose well_data entry
is the number 0 the claim's priority order falls through to its third
clause and demands the one-element list holding the whole parsed
object, but the decoder yields the bare number 0 instead. -/
theorem C4_counterexample :
    resolveShape (Json.obj [("well_data", Json.num 0)]) = Json.num 0
    ∧ resolveShape (Json.obj [("well_data", Json.num 0)])
        ≠ Json.arr [Json.obj [("well_data", Json.num 0)]] := by
  refine ⟨rfl, ?_⟩
  rw [show resolveShape (Json.obj [("well_data", Json.num 0)]) = Json.num 0 from rfl]
  simp

/-- C4 amended: the shape resolution, in priority order — an object
containing a well_data key yields the stored value whatever its type;
an object without the key yields the one-element list holding the
object; a bare array yields itself; any other value is wrapped into a
one-element list. -/
theorem C4_shape_resolution (d : Json) :
    (∀ fields v, d = Json.obj fields → objLookup "well_data" fields = some v →
      resolveShape d = v)
    ∧ (∀ fields, d = Json.obj fields → objLookup "well_data" fields = none →
      resolveShape d = Json.arr [d])
    ∧ (∀ xs, d = Json.arr xs → resolveShape d = Json.arr xs)
    ∧ (isObjJ d = false → isArrJ d = false → resolveShape d = Json.arr [d]) := by
  refine ⟨?_, ?_, ?_, ?_⟩
  · intro fields v hd hv
    subst hd
    show (match objLookup "well_data" fields with
      | some v => v
      | none => Json.arr [Json.obj fields]) = v
    rw [hv]
  · intro fields hd hv
    subst hd
    show (match objLookup "well_data" fields with
      | some v => v
      | none => Json.arr [Json.obj fields]) = Json.arr [Json.obj fields]
    rw [hv]
  · intro xs hd
    subst hd
    rfl
  · intro hobj harr
    cases d with
    | obj fields => simp [isObjJ] at hobj
    | arr xs => simp [isArrJ] at harr
    | null => rfl
    | bool b => rfl
    | num n => rfl
    | str s => rfl

/-- Witness for C4 amended: all four clauses at concrete payloads. -/
theorem C4_shape_resolution_witness :
    resolveShape (Json.obj [("well_data", Json.num 0)]) = Json.num 0
    ∧ resolveShape (Json.obj [("a", Json.num 1)])
        = Json.arr [Json.obj [("a", Json.num 1)]]
    ∧ resolveShape (Json.arr [sampleRec1]) = Json.arr [sampleRec1]
    ∧ resolveShape (Json.str "x") = Json.arr [Json.str "x"] :=
  ⟨(C4_shape_resolution (Json.obj [("well_data", Json.num 0)])).1
      [("well_data", Json.num 0)] (Json.num 0) rfl rfl,
    (C4_shape_resolution (Json.obj [("a", Json.num 1)])).2.1
      [("a", Json.num 1)] rfl rfl,
    (C4_shape_resolution (Json.arr [sampleRec1])).2.2.1 [sampleRec1] rfl,
    (C4_shape_resolution (Json.str "x")).2.2.2 rfl rfl⟩

/-- C5: the snapshot read returns the current history with the
one-level flattening applied — a stored entry that is a list is spliced
in place in order, any other entry is kept as-is — and the read leaves
the persisted state (and the listener state) unchanged. -/
theorem C5_snapshot_flattening :
    (∀ s : StoreSt, evStep Ev.snapshotRead s = s)
    ∧ (∀ s : StoreSt, snapshotOf s = flattened_data s.file)
    ∧ flattened_data [] = []
    ∧ (∀ xs rest, flattened_data (Json.arr xs :: rest) = xs ++ flattened_data rest)
    ∧ (∀ e rest, isArrJ e = false →
        flattened_data (e :: rest) = e :: flattened_data rest) :=
  ⟨fun _ => rfl, fun _ => rfl, rfl, fun _ _ => rfl, flattened_cons_keep⟩

/-- Witness for C5 at a concrete mixed history. -/
theorem C5_snapshot_flattening_witness :
    isArrJ sampleRec1 = false
    ∧ flattened_data (sampleRec1 :: [Json.arr [sampleRec2, sampleRec3]])
        = sampleRec1 :: flattened_data [Json.arr [sampleRec2, sampleRec3]] :=
  ⟨rfl, C5_snapshot_flattening.2.2.2.2 sampleRec1
    [Json.arr [sampleRec2, sampleRec3]] rfl⟩

/-- C6: a non-empty buffer that is not valid JSON makes decoding fail
with the malformed-payload outcome and leaves the persisted history
exactly unchanged (the handler performs no file operation on that
path), and a subsequent well-formed payload on a new connection still
merges correctly into that unchanged history. -/
theorem C6_decode_failure_isolation (h : List Json) :
    handleConn Recv.malformed h = (h, Outcome.malformedPayload)
    ∧ (∀ xs, xs.all isObjJ = true →
        handleConn (Recv.parsed (Json.arr xs)) (handleConn Recv.malformed h).1
          = (mergeRecords xs h, Outcome.ok)) := by
  refine ⟨rfl, ?_⟩
  intro xs hxs
  show processParsed (Json.arr xs) h = (mergeRecords xs h, Outcome.ok)
  show (if xs.all isObjJ then (mergeRecords xs h, Outcome.ok)
    else (h, Outcome.processingError)) = (mergeRecords xs h, Outcome.ok)
  rw [hxs]
  rfl

/-- Witness for C6: a malformed buffer followed by a one-record batch
against a concrete history. -/
theorem C6_decode_failure_isolation_witness :
    [sampleRec2].all isObjJ = true
    ∧ handleConn (Recv.parsed (Json.arr [sampleRec2]))
        (handleConn Recv.malformed [sampleRec1]).1
        = (mergeRecords [sampleRec2] [sampleRec1], Outcome.ok) :=
  ⟨rfl, (C6_decode_failure_isolation [sampleRec1]).2 [sampleRec2] rfl⟩

/-- C7 counterexample: a write that fails during the dump leaves the
file neither at its last successfully-written value nor at the new
value — the open already truncated it — so the durable state is
partially written, against the claim. -/
theorem C7_counterexample :
    (persistDump [sampleRec1] WriteFail.duringDump (FileContent.good [sampleRec2])).1
      ≠ FileContent.good [sampleRec2]
    ∧ (persistDump [sampleRec1] WriteFail.duringDump (FileContent.good [sampleRec2])).1
      ≠ FileContent.good [sampleRec1] := by
  constructor <;> simp [persistDump]

/-- C7 amended: a persistence failure is caught by the generic
per-connection exception handler (there is no dedicated persistence
error), a failure of the open leaves the previous file content intact,
a failure during the dump leaves a truncated document because the file
is opened in truncating write mode before the dump, and a merge whose
write fails never reports the ok outcome. -/
theorem C7_persist_failure (h : List Json) (f : FileContent) :
    persistDump h WriteFail.noFail f = (FileContent.good h, Outcome.ok)
    ∧ persistDump h WriteFail.atOpen f = (f, Outcome.processingError)
    ∧ persistDump h WriteFail.duringDump f
        = (FileContent.truncated, Outcome.processingError)
    ∧ (∀ w, w ≠ WriteFail.noFail → (persistDump h w f).2 ≠ Outcome.ok) := by
  refine ⟨rfl, rfl, rfl, ?_⟩
  intro w hw
  cases w with
  | noFail => exact absurd rfl hw
  | atOpen => simp [persistDump]
  | duringDump => simp [persistDump]

/-- Witness for C7 amended at a concrete failing write. -/
theorem C7_persist_failure_witness :
    WriteFail.duringDump ≠ WriteFail.noFail
    ∧ (persistDump [sampleRec1] WriteFail.duringDump
        (FileContent.good [sampleRec2])).2 ≠ Outcome.ok :=
  ⟨by decide, (C7_persist_failure [sampleRec1] (FileContent.good [sampleRec2])).2.2.2
    WriteFail.duringDump (by decide)⟩

/-- C8 counterexample: a merge whose load preceded the reset writes
back afterwards and resurrects the pre-reset history.  In the
interleaving load, reset, save the snapshot taken after the reset
returned is not empty — it even contains the pre-reset record again. -/
theorem C8_counterexample :
    snapshotOf (runTrace [Ev.loadHistory, Ev.resetData, Ev.saveMerged [sampleRec1]]
      ⟨[sampleRec2], []⟩) ≠ [] := by
  rw [show snapshotOf (runTrace [Ev.loadHistory, Ev.resetData,
    Ev.saveMerged [sampleRec1]] ⟨[sampleRec2], []⟩)
    = [sampleRec1, sampleRec2] from rfl]
  simp

/-- C8 amended: the reset event replaces the persisted history with the
empty sequence and a snapshot taken right after it (with no intervening
write) observes an empty history; but reset is not protected against an
in-flight merge — a merge whose load preceded the reset overwrites the
file afterwards with its own merge of the pre-reset history, undoing
the reset. -/
theorem C8_reset_not_atomic (s : StoreSt) (b : List Json) :
    (evStep Ev.resetData s).file = []
    ∧ snapshotOf (evStep Ev.resetData s) = []
    ∧ (runTrace [Ev.loadHistory, Ev.resetData, Ev.saveMerged b] s).file
        = mergeRecords b s.file :=
  ⟨rfl, rfl, rfl⟩

/-- The concatenation of singleton batches is the record list itself. -/
theorem flatten_singletons (rs : List Json) :
    (rs.map (fun r => [r])).flatten = rs := by
  induction rs with
  | nil => rfl
  | cons r rs ih => simp [ih]

/-- Total record count of singleton batches. -/
theorem sum_singleton_lengths (rs : List Json) :
    (((rs.map (fun r => [r])).map List.length)).sum = rs.length := by
  induction rs with
  | nil => rfl
  | cons r rs ih =>
    simp only [List.map_cons, List.sum_cons, List.length_cons, List.length_nil, ih]
    omega

/-- C9 counterexample: 1001 merges of one record each starting from the
empty history leave min(1001, 1000) = 1000 stored records, not 1001 —
the capacity cap evicts one, so the final history is not exactly K
records for K = 1001. -/
theorem C9_counterexample :
    (mergeAll ((List.replicate 1001 Json.null).map (fun r => [r]))).length ≠ 1001 := by
  rw [mergeAll_length, sum_singleton_lengths, List.length_replicate]
  decide

/-- C9 amended: the listener thread handles connections strictly one
after another, so any K merges are applied in some total order with no
lost update and no corrupted state: for every arrival order of K
single-record merges against an initially empty history, the final
history is the most recent min(K, 1000) records newest-first — exactly
K records whenever K is at most the 1000-record capacity. -/
theorem C9_serialized_merges (rs : List Json) :
    (mergeAll (rs.map (fun r => [r]))).length = min rs.length 1000
    ∧ mergeAll (rs.map (fun r => [r])) = rs.reverse.take 1000 := by
  constructor
  · rw [mergeAll_length, sum_singleton_lengths]
  · rw [mergeAll_eq_take, ← List.map_reverse, flatten_singletons]

/-- Flattening a history of n identical two-record nested entries
yields 2 * n records. -/
theorem flattened_replicate_arr (n : Nat) (xs : List Json) :
    (flattened_data (List.replicate n (Json.arr xs))).length = n * xs.length := by
  induction n with
  | zero => simp [List.replicate_zero, flattened_data]
  | succ n ih =>
    rw [List.replicate_succ]
    show (xs ++ flattened_data (List.replicate n (Json.arr xs))).length = _
    rw [List.length_append, ih]
    ring

/-- C10: the 1000-entry capacity cap of the merge applies to top-level
persisted entries only, before any read-time flattening, so a persisted
history of at most 1000 entries some of which are nested lists can
flatten to more than 1000 records at snapshot time. -/
theorem C10_cap_before_flattening :
    (∀ new h : List Json, (mergeRecords new h).length ≤ 1000)
    ∧ (∃ h : List Json, h.length ≤ 1000
        ∧ (∃ e, e ∈ h ∧ isArrJ e = true)
        ∧ 1000 < (flattened_data h).length) := by
  constructor
  · intro new h
    rw [mergeRecords, List.length_take]
    exact Nat.min_le_left _ _
  · refine ⟨List.replicate 1000 (Json.arr [sampleRec1, sampleRec2]),
      by rw [List.length_replicate], ?_, ?_⟩
    · exact ⟨Json.arr [sampleRec1, sampleRec2],
        List.mem_replicate.mpr ⟨by norm_num, rfl⟩, rfl⟩
    · rw [flattened_replicate_arr]
      norm_num
